import Mathlib

/-!
# Paystel client bootstrap

A shallow embedding of the bootstrap code of the Paystel web client:

* `src/plugins/vuetify.js`: the options object handed to `createVuetify`,
  including the single read of browser storage;
* `src/plugins/index.js`: `registerPlugins`, a chain of four `app.use` calls;
* `src/main.js`: `createApp`, `registerPlugins`, `app.mount`.

JavaScript objects are association lists in the order their keys are written.
A mutable object that a function updates in place is passed in and returned.
Browser storage is an explicit state, together with a log of the operations
performed on it.
-/

set_option autoImplicit false

namespace Paystel

/-! ## Browser storage -/

/-- Content of `localStorage`: string keys mapped to string values. -/
abbrev Storage := List (String × String)

/-- One call of the Web Storage interface. -/
inductive StorageOp where
  | getItem (key : String)
  | setItem (key value : String)
  | removeItem (key : String)
  | clear
  deriving DecidableEq, Repr

/-- The part of the browser the bootstrap code touches: the content of `localStorage`
and the calls made on it so far, oldest first. -/
structure Browser where
  localStorage : Storage
  storageLog : List StorageOp
  deriving DecidableEq, Repr

/-- The call `localStorage.getItem(key)`: the stored string, or `none` for the `null` that
is returned when the key is absent. The content is left as it is; the call is logged. -/
def getItem (key : String) (b : Browser) : Option String × Browser :=
  (b.localStorage.lookup key, { b with storageLog := b.storageLog ++ [StorageOp.getItem key] })

/-- The JavaScript expression `a || d` for `a` a string or `null` and `d` a string: `a` when
it is truthy, that is a string other than the empty one, and `d` otherwise. -/
def jsOr (a : Option String) (d : String) : String :=
  match a with
  | some s => if s = "" then d else s
  | none => d

/-! ## Values that come from other modules -/

/-- Bindings that `plugins/vuetify.js` and `main.js` take from other modules and hand on
untouched: `en` of `vuetify/locale`, `aliases` and `mdi` of the mdi-svg icon set, and the
root component `App` of `App.vue`. Only their identity is known here. -/
inductive Imported where
  | en
  | aliases
  | mdi
  | App
  deriving DecidableEq, Repr

/-! ## `plugins/vuetify.js` -/

/-- The `locale` entry of the options of `createVuetify`. -/
structure LocaleOptions where
  locale : String
  fallback : String
  messages : List (String × Imported)
  deriving DecidableEq, Repr

/-- One theme: its table from colour role to colour value. -/
structure ThemeDefinition where
  colors : List (String × String)
  deriving DecidableEq, Repr

/-- The `theme` entry of the options of `createVuetify`. -/
structure ThemeOptions where
  defaultTheme : String
  themes : List (String × ThemeDefinition)
  deriving DecidableEq, Repr

/-- The `icons` entry of the options of `createVuetify`. -/
structure IconOptions where
  defaultSet : String
  aliases : Imported
  sets : List (String × Imported)
  deriving DecidableEq, Repr

/-- The options object of `createVuetify`. -/
structure VuetifyOptions where
  locale : LocaleOptions
  theme : ThemeOptions
  icons : IconOptions
  deriving DecidableEq, Repr

/-- The `theme` entry written in `plugins/vuetify.js`, lines 22 to 50. -/
def themeOptions : ThemeOptions :=
  { defaultTheme := "dark"
    themes :=
      [ ("light",
          { colors :=
              [ ("primary", "#2E2E2E")
              , ("secondary", "#424242")
              , ("accent", "#82B1FF")
              , ("error", "#FF5252")
              , ("info", "#2196F3")
              , ("success", "#4CAF50")
              , ("warning", "#e9b108")
              , ("border", "#e4e4e4") ] })
      , ("dark",
          { colors :=
              [ ("primary", "#68529E")
              , ("secondary", "#424242")
              , ("accent", "#F9AF16")
              , ("error", "#FF5252")
              , ("info", "#2196F3")
              , ("success", "#4CAF50")
              , ("warning", "#e9b108")
              , ("border", "#e4e4e4") ] }) ] }

/-- The `icons` entry written in `plugins/vuetify.js`, lines 51 to 59. The spread
`{ ...aliases }` is a copy of the imported alias table. -/
def iconOptions : IconOptions :=
  { defaultSet := "mdi"
    aliases := Imported.aliases
    sets := [("mdi", Imported.mdi)] }

/-- The argument of `createVuetify` in `plugins/vuetify.js`, lines 16 to 60. Evaluating the
object literal reads `localStorage` once, for the `locale` entry. -/
def vuetifyOptions (b : Browser) : VuetifyOptions × Browser :=
  let (stored, b1) := getItem "locale" b
  ({ locale :=
       { locale := jsOr stored "en"
         fallback := "en"
         messages := [("en", Imported.en)] }
     theme := themeOptions
     icons := iconOptions }, b1)

/-! ## Plugins and the application instance -/

/-- The plugin objects that `plugins/index.js` installs: the object `createVuetify` returns
for given options, the object the call `createPinia()` in `registerPlugins` returns, the
default export of `../router` and the default export `Toast` of `vue-toastification`. -/
inductive Plugin where
  | vuetify (options : VuetifyOptions)
  | pinia
  | router
  | Toast
  deriving DecidableEq, Repr

/-- The call `createVuetify(options)`. -/
def createVuetify (options : VuetifyOptions) : Plugin :=
  Plugin.vuetify options

/-- The call `createPinia()`. -/
def createPinia : Plugin :=
  Plugin.pinia

/-- The default export of `plugins/vuetify.js`: evaluating the module evaluates the options
and hands them to `createVuetify`. -/
def vuetify (b : Browser) : Plugin × Browser :=
  let (options, b1) := vuetifyOptions b
  (createVuetify options, b1)

/-- The options object given to the notification plugin. -/
structure ToastOptions where
  transition : String
  hideProgressBar : Bool
  newestOnTop : Bool
  position : String
  deriving DecidableEq, Repr

/-- A method call received by an application instance. The options of `use` are `none` when
the call has the plugin as its only argument. -/
inductive Call where
  | use (plugin : Plugin) (options : Option ToastOptions)
  | mount (container : String)
  deriving DecidableEq, Repr

/-- The plugin of a `use` call. -/
def Call.plugin? : Call → Option Plugin
  | .use p _ => some p
  | .mount _ => none

/-- The options argument of a `use` call. -/
def Call.options? : Call → Option (Option ToastOptions)
  | .use _ o => some o
  | .mount _ => none

/-- True for a `mount` call. -/
def Call.isMount : Call → Bool
  | .use _ _ => false
  | .mount _ => true

/-- An application instance of the UI framework, as far as the bootstrap code can tell:
the root component it was created from, the plugins installed on it in order of
installation, and the method calls it has received, oldest first. -/
structure App where
  rootComponent : Imported
  installedPlugins : List Plugin
  calls : List Call
  deriving DecidableEq, Repr

/-- The call `createApp(root)` of the UI framework: a fresh instance with nothing installed. -/
def createApp (root : Imported) : App :=
  { rootComponent := root, installedPlugins := [], calls := [] }

/-- The call `app.use(plugin, options)` of the UI framework: the plugin is installed unless
it is installed already, and the instance itself is returned, so that calls chain. -/
def App.use (app : App) (plugin : Plugin) (options : Option ToastOptions) : App :=
  { app with
    installedPlugins :=
      if plugin ∈ app.installedPlugins then app.installedPlugins
      else app.installedPlugins ++ [plugin]
    calls := app.calls ++ [Call.use plugin options] }

/-- The call `app.mount(container)` of the UI framework, as a call received by the instance. -/
def App.mount (app : App) (container : String) : App :=
  { app with calls := app.calls ++ [Call.mount container] }

/-- The calls an instance has received between two of its states. -/
def newCalls (before after : App) : List Call :=
  after.calls.drop before.calls.length

/-! ## `plugins/index.js` -/

/-- The function `registerPlugins(app)` of `plugins/index.js`, lines 7 to 17. The module
binding `vuetify` is the first argument; `app` is updated in place, so it is returned. -/
def registerPlugins (vuetify : Plugin) (app : App) : App :=
  (((app.use vuetify none).use createPinia none).use Plugin.router none).use Plugin.Toast
    (some
      { transition := "Vue-Toastification__slideBlurred"
        hideProgressBar := true
        newestOnTop := true
        position := "top-center" })

/-! ## `main.js` -/

/-- The application instance that `main.js` builds in lines 8 to 12. The module binding
`vuetify` that `registerPlugins` uses is the value `plugins/vuetify.js` exports when it is
evaluated in the browser state `b`. Only the instance is described: what the other imported
modules, the installation of the plugins and the mounting do to the browser is not part of
this definition. -/
def main (b : Browser) : App :=
  let vuetifyPlugin := (vuetify b).1
  let app := createApp Imported.App
  let app1 := registerPlugins vuetifyPlugin app
  let app2 := app1.mount "#app"
  app2

/-- The colour roles every theme has to define. -/
def requiredColorRoles : List String :=
  ["primary", "secondary", "accent", "error", "info", "success", "warning", "border"]

/-! ## Helper lemmas -/

theorem vuetifyOptions_locale (b : Browser) :
    (vuetifyOptions b).1.locale.locale = jsOr (b.localStorage.lookup "locale") "en" :=
  rfl

theorem vuetify_fst (b : Browser) : (vuetify b).1 = Plugin.vuetify (vuetifyOptions b).1 :=
  rfl

theorem registerPlugins_calls (v : Plugin) (app : App) :
    (registerPlugins v app).calls =
      app.calls ++
        [ Call.use v none, Call.use Plugin.pinia none, Call.use Plugin.router none,
          Call.use Plugin.Toast
            (some ⟨"Vue-Toastification__slideBlurred", true, true, "top-center"⟩) ] := by
  simp [registerPlugins, App.use, createPinia]

theorem newCalls_registerPlugins (v : Plugin) (app : App) :
    newCalls app (registerPlugins v app) =
      [ Call.use v none, Call.use Plugin.pinia none, Call.use Plugin.router none,
        Call.use Plugin.Toast
          (some ⟨"Vue-Toastification__slideBlurred", true, true, "top-center"⟩) ] := by
  simp [newCalls, registerPlugins_calls]

theorem registerPlugins_installed (o : VuetifyOptions) (app : App)
    (h : app.installedPlugins = []) :
    (registerPlugins (Plugin.vuetify o) app).installedPlugins =
      [Plugin.vuetify o, Plugin.pinia, Plugin.router, Plugin.Toast] := by
  simp [registerPlugins, App.use, createPinia, h]

/-! ## Properties -/

/-- C1, as stated, fails on the code: when the empty string is stored under the key
`locale`, the locale passed to `createVuetify` is `"en"` and not the stored value. -/
theorem C1_empty_stored_value_is_replaced :
    (Browser.mk [("locale", "")] []).localStorage.lookup "locale" = some "" ∧
      (vuetifyOptions (Browser.mk [("locale", "")] [])).1.locale.locale = "en" ∧
      (vuetifyOptions (Browser.mk [("locale", "")] [])).1.locale.locale ≠ "" := by
  decide

/-- C1, amended: for every state of browser storage, the locale passed to `createVuetify`
equals the value stored under the key `locale` when that value is a string other than the
empty one, and equals `"en"` when the stored value is the empty string or when no value is
stored under that key. -/
theorem C1_locale_is_stored_value_or_en (b : Browser) :
    (∀ v : String, b.localStorage.lookup "locale" = some v → v ≠ "" →
        (vuetifyOptions b).1.locale.locale = v) ∧
      (b.localStorage.lookup "locale" = some "" → (vuetifyOptions b).1.locale.locale = "en") ∧
      (b.localStorage.lookup "locale" = none → (vuetifyOptions b).1.locale.locale = "en") := by
  refine ⟨?_, ?_, ?_⟩
  · intro v hv hne
    rw [vuetifyOptions_locale, hv]
    simp [jsOr, hne]
  · intro hv
    rw [vuetifyOptions_locale, hv]
    rfl
  · intro hv
    rw [vuetifyOptions_locale, hv]
    rfl

/-- C1, amended, at three storage contents: `fr` stored, the empty string stored, and
nothing stored. -/
theorem C1_locale_is_stored_value_or_en_witness :
    ((Browser.mk [("locale", "fr")] []).localStorage.lookup "locale" = some "fr" ∧
        "fr" ≠ "" ∧
        (vuetifyOptions (Browser.mk [("locale", "fr")] [])).1.locale.locale = "fr") ∧
      ((Browser.mk [("locale", "")] []).localStorage.lookup "locale" = some "" ∧
        (vuetifyOptions (Browser.mk [("locale", "")] [])).1.locale.locale = "en") ∧
      ((Browser.mk [("theme", "dark")] []).localStorage.lookup "locale" = none ∧
        (vuetifyOptions (Browser.mk [("theme", "dark")] [])).1.locale.locale = "en") :=
  ⟨⟨by decide, by decide,
      (C1_locale_is_stored_value_or_en (Browser.mk [("locale", "fr")] [])).1 "fr"
        (by decide) (by decide)⟩,
    ⟨by decide,
      (C1_locale_is_stored_value_or_en (Browser.mk [("locale", "")] [])).2.1 (by decide)⟩,
    ⟨by decide,
      (C1_locale_is_stored_value_or_en (Browser.mk [("theme", "dark")] [])).2.2 (by decide)⟩⟩

/-- C2: for every browser state and every application instance with no plugin installed,
after `registerPlugins` the vuetify plugin, pinia, the router and Toast are each installed
exactly once, and every installed plugin is one of these four. -/
theorem C2_each_plugin_registered_once (b : Browser) (app : App)
    (h : app.installedPlugins = []) :
    (registerPlugins (vuetify b).1 app).installedPlugins.count (vuetify b).1 = 1 ∧
      (registerPlugins (vuetify b).1 app).installedPlugins.count Plugin.pinia = 1 ∧
      (registerPlugins (vuetify b).1 app).installedPlugins.count Plugin.router = 1 ∧
      (registerPlugins (vuetify b).1 app).installedPlugins.count Plugin.Toast = 1 ∧
      ∀ p : Plugin, p ∈ (registerPlugins (vuetify b).1 app).installedPlugins →
        p = (vuetify b).1 ∨ p = Plugin.pinia ∨ p = Plugin.router ∨ p = Plugin.Toast := by
  rw [vuetify_fst, registerPlugins_installed _ _ h]
  refine ⟨?_, ?_, ?_, ?_, ?_⟩
  · simp [List.count_cons]
  · simp [List.count_cons]
  · simp [List.count_cons]
  · simp [List.count_cons]
  · intro p hp
    simpa using hp

/-- C2 at the instance `createApp(App)` and an empty storage. -/
theorem C2_each_plugin_registered_once_witness :
    (createApp Imported.App).installedPlugins = [] ∧
      (registerPlugins (vuetify (Browser.mk [] [])).1
          (createApp Imported.App)).installedPlugins.count Plugin.Toast = 1 :=
  ⟨rfl,
    (C2_each_plugin_registered_once (Browser.mk [] []) (createApp Imported.App) rfl).2.2.2.1⟩

/-- C3: for every browser state and every application instance, `registerPlugins` adds
exactly four calls to the calls the instance has received, all of them `use` calls, for the
plugins vuetify, pinia, router, Toast in this order; the added calls are the same for every
instance. -/
theorem C3_use_calls_in_fixed_order (b : Browser) (app : App) :
    (registerPlugins (vuetify b).1 app).calls =
        app.calls ++ newCalls app (registerPlugins (vuetify b).1 app) ∧
      (newCalls app (registerPlugins (vuetify b).1 app)).length = 4 ∧
      (newCalls app (registerPlugins (vuetify b).1 app)).filterMap Call.plugin? =
        [Plugin.vuetify (vuetifyOptions b).1, Plugin.pinia, Plugin.router, Plugin.Toast] := by
  rw [newCalls_registerPlugins, registerPlugins_calls, vuetify_fst]
  simp [Call.plugin?]

/-- C4: in the theme configuration passed to `createVuetify`, for every browser state, each
of the themes `light` and `dark` is present and gives a colour value to every one of the
eight required roles. -/
theorem C4_both_themes_define_every_role (b : Browser) :
    ∀ name ∈ ["light", "dark"], ∀ role ∈ requiredColorRoles,
      ∃ t : ThemeDefinition,
        (vuetifyOptions b).1.theme.themes.lookup name = some t ∧
          (t.colors.lookup role).isSome = true := by
  show ∀ name ∈ ["light", "dark"], ∀ role ∈ requiredColorRoles,
      ∃ t : ThemeDefinition,
        themeOptions.themes.lookup name = some t ∧ (t.colors.lookup role).isSome = true
  decide

/-- C4 at the theme `dark` and the role `border`. -/
theorem C4_both_themes_define_every_role_witness :
    "dark" ∈ ["light", "dark"] ∧ "border" ∈ requiredColorRoles ∧
      ∃ t : ThemeDefinition,
        (vuetifyOptions (Browser.mk [] [])).1.theme.themes.lookup "dark" = some t ∧
          (t.colors.lookup "border").isSome = true :=
  ⟨by decide, by decide,
    C4_both_themes_define_every_role (Browser.mk [] []) "dark" (by decide) "border"
      (by decide)⟩

/-- C5: for every browser state, the instance `main.js` ends with was created from the root
component `App`, and the calls it received are, in this order, the four `use` calls of
`registerPlugins` followed by `mount` on `#app`; `mount` is called exactly once, as the last
call, and the four plugins are installed. -/
theorem C5_bootstrap_creates_registers_mounts (b : Browser) :
    (main b).rootComponent = Imported.App ∧
      (main b).calls =
        newCalls (createApp Imported.App)
            (registerPlugins (vuetify b).1 (createApp Imported.App)) ++
          [Call.mount "#app"] ∧
      (main b).calls =
        [ Call.use (vuetify b).1 none, Call.use Plugin.pinia none,
          Call.use Plugin.router none,
          Call.use Plugin.Toast
            (some ⟨"Vue-Toastification__slideBlurred", true, true, "top-center"⟩),
          Call.mount "#app" ] ∧
      (main b).calls.filter Call.isMount = [Call.mount "#app"] ∧
      (main b).installedPlugins =
        [(vuetify b).1, Plugin.pinia, Plugin.router, Plugin.Toast] := by
  refine ⟨rfl, rfl, rfl, rfl, ?_⟩
  exact registerPlugins_installed (vuetifyOptions b).1 (createApp Imported.App) rfl

/-- C7: for every browser state and every application instance, among the calls that
`registerPlugins` adds there is exactly one for the plugin Toast, and its options are the
record with transition `Vue-Toastification__slideBlurred`, hideProgressBar true, newestOnTop
true and position `top-center`; the three calls for the other plugins have no options. -/
theorem C7_toast_options_fixed (b : Browser) (app : App) :
    (newCalls app (registerPlugins (vuetify b).1 app)).filter
          (fun c => decide (c.plugin? = some Plugin.Toast)) =
        [ Call.use Plugin.Toast
            (some
              { transition := "Vue-Toastification__slideBlurred"
                hideProgressBar := true
                newestOnTop := true
                position := "top-center" }) ] ∧
      ((newCalls app (registerPlugins (vuetify b).1 app)).filter
          (fun c => decide (c.plugin? ≠ some Plugin.Toast))).map Call.options? =
        [some none, some none, some none] := by
  rw [newCalls_registerPlugins, vuetify_fst]
  simp [Call.plugin?, Call.options?, List.filter_cons]

/-- C9: for every browser state, the locale selected by
`localStorage.getItem('locale') || 'en'` is a string other than the empty one. -/
theorem C9_locale_never_empty (b : Browser) :
    (vuetifyOptions b).1.locale.locale ≠ "" ∧ 0 < (vuetifyOptions b).1.locale.locale.length := by
  rw [vuetifyOptions_locale]
  cases h : b.localStorage.lookup "locale" with
  | none => exact ⟨by decide, by decide⟩
  | some v =>
    by_cases hv : v = ""
    · simp only [jsOr, hv, if_true]
      exact ⟨by decide, by decide⟩
    · simp only [jsOr, hv, if_false]
      refine ⟨hv, ?_⟩
      cases v with
      | mk data =>
        cases data with
        | nil => exact absurd rfl hv
        | cons c cs => exact Nat.succ_pos cs.length

/-- C10: for every browser state, in the options passed to `createVuetify` the default theme
is `dark` and is a key of the themes table, the fallback locale is `en` and is a key of the
messages table, and the default icon set is `mdi` and is a key of the icon sets table. -/
theorem C10_default_names_are_keys (b : Browser) :
    (vuetifyOptions b).1.theme.defaultTheme = "dark" ∧
      (vuetifyOptions b).1.theme.defaultTheme ∈
        (vuetifyOptions b).1.theme.themes.map Prod.fst ∧
      (vuetifyOptions b).1.locale.fallback = "en" ∧
      (vuetifyOptions b).1.locale.fallback ∈
        (vuetifyOptions b).1.locale.messages.map Prod.fst ∧
      (vuetifyOptions b).1.icons.defaultSet = "mdi" ∧
      (vuetifyOptions b).1.icons.defaultSet ∈
        (vuetifyOptions b).1.icons.sets.map Prod.fst := by
  refine ⟨rfl, ?_, rfl, ?_, rfl, ?_⟩
  · show "dark" ∈ themeOptions.themes.map Prod.fst
    decide
  · show "en" ∈ [("en", Imported.en)].map Prod.fst
    decide
  · show "mdi" ∈ iconOptions.sets.map Prod.fst
    decide

end Paystel
